import Mathlib

/-!
Shallow embedding of the `simonw/noaa-tidesandcurrents` repository
(`fetch.py` and `display_errors.py`) and proofs about it.

`fetch.py` is modelled as a pure state-transition function: the filesystem
(artifacts, error log, created directories) is an explicit record, the HTTP
layer is an environment mapping a URL to either a response or a raised
exception, and each call additionally reports its trace of side effects.
gzip compression round-trips, so artifacts are modelled by the text they
decompress to.  `display_errors.py` is modelled as a pure summarization
function over the list of log lines.
-/

namespace NoaaTides

/-- JSON values as produced by parsing a response body with `json` /
`response.json()`.  Numbers are modelled as integers; float syntax is
abstracted as a parse failure (the claims never involve floats), and
`\uXXXX` string escapes are likewise abstracted. -/
inductive JsonVal where
  | null
  | bool (b : Bool)
  | num (n : Int)
  | str (s : String)
  | arr (elems : List JsonVal)
  | obj (fields : List (String × JsonVal))

/-- The opening-brace character, kept as a named constant. -/
def lbrace : Char := Char.ofNat 123

/-- The closing-brace character, kept as a named constant. -/
def rbrace : Char := Char.ofNat 125

/-- Python-`dict` insertion: an existing key keeps its position and takes the
new value; a new key is appended.  Used for JSON objects because `json.loads`
builds a `dict` (duplicate keys: last value wins, first position kept). -/
def dictInsert (fields : List (String × JsonVal)) (k : String) (v : JsonVal) :
    List (String × JsonVal) :=
  match fields with
  | [] => [(k, v)]
  | (k0, v0) :: rest =>
      if k0 = k then (k0, v) :: rest else (k0, v0) :: dictInsert rest k v

/-- JSON whitespace skipping (space, tab, newline, carriage return), as in
Python's `json` module. -/
def skipWs : List Char → List Char
  | [] => []
  | c :: cs =>
      if c = ' ' ∨ c = '\t' ∨ c = '\n' ∨ c = '\r' then skipWs cs else c :: cs

/-- Strip an expected literal from the front of the input, returning the
remainder, or `none` if the input does not start with the literal. -/
def stripLit : List Char → List Char → Option (List Char)
  | [], cs => some cs
  | _ :: _, [] => none
  | l :: ls, c :: cs => if c = l then stripLit ls cs else none

/-- Decode a single-character JSON string escape (after the backslash).
`\uXXXX` escapes are abstracted as unsupported. -/
def escDecode (e : Char) : Option Char :=
  if e = '"' ∨ e = '\\' ∨ e = '/' then some e
  else if e = 'n' then some '\n'
  else if e = 't' then some '\t'
  else if e = 'r' then some '\r'
  else if e = 'b' then some '\x08'
  else if e = 'f' then some '\x0c'
  else none

/-- Parse the body of a JSON string (the opening quote already consumed),
returning the decoded characters and the remainder after the closing quote. -/
def parseStringChars : Nat → List Char → Option (List Char × List Char)
  | 0, _ => none
  | _ + 1, [] => none
  | fuel + 1, c :: cs =>
      if c = '"' then some ([], cs)
      else if c = '\\' then
        match cs with
        | [] => none
        | e :: cs2 =>
            match escDecode e with
            | none => none
            | some d =>
                match parseStringChars fuel cs2 with
                | none => none
                | some (out, rest) => some (d :: out, rest)
      else if c.toNat < 32 then none
      else
        match parseStringChars fuel cs with
        | none => none
        | some (out, rest) => some (c :: out, rest)

/-- Numeric value of a list of decimal digit characters. -/
def natFromDigits (ds : List Char) : Nat :=
  ds.foldl (fun a c => a * 10 + (c.toNat - 48)) 0

/-- Parse a JSON integer literal.  Float syntax (a following `.`, `e` or `E`)
is abstracted as a parse failure; leading zeros are rejected as in Python. -/
def parseNumber (cs : List Char) : Option (JsonVal × List Char) :=
  let signed := match cs with
    | '-' :: rest => (true, rest)
    | _ => (false, cs)
  let ds := signed.2.takeWhile Char.isDigit
  let rest := signed.2.dropWhile Char.isDigit
  if ds.isEmpty then none
  else if 1 < ds.length ∧ ds.head? = some '0' then none
  else
    let v : Int := if signed.1 then -(natFromDigits ds : Int) else (natFromDigits ds : Int)
    match rest with
    | [] => some (.num v, [])
    | c :: _ =>
        if c = '.' ∨ c = 'e' ∨ c = 'E' then none else some (.num v, rest)

/-- Tail of the literal `null` after its first character. -/
def litNullTail : List Char := ['u', 'l', 'l']

/-- Tail of the literal `true` after its first character. -/
def litTrueTail : List Char := ['r', 'u', 'e']

/-- Tail of the literal `false` after its first character. -/
def litFalseTail : List Char := ['a', 'l', 's', 'e']

mutual

/-- Recursive-descent JSON value parser (models `json.loads` on the subset
described at `JsonVal`), with explicit fuel. -/
def parseVal : Nat → List Char → Option (JsonVal × List Char)
  | 0, _ => none
  | fuel + 1, cs =>
      match skipWs cs with
      | [] => none
      | c :: rest =>
          if c = 'n' then
            match stripLit litNullTail rest with
            | some r => some (.null, r)
            | none => none
          else if c = 't' then
            match stripLit litTrueTail rest with
            | some r => some (.bool true, r)
            | none => none
          else if c = 'f' then
            match stripLit litFalseTail rest with
            | some r => some (.bool false, r)
            | none => none
          else if c = '"' then
            match parseStringChars (rest.length + 1) rest with
            | some (out, r) => some (.str (String.mk out), r)
            | none => none
          else if c = '[' then parseArr fuel rest
          else if c = lbrace then parseObj fuel rest
          else parseNumber (c :: rest)

/-- Parse the contents of a JSON array, the `[` already consumed. -/
def parseArr : Nat → List Char → Option (JsonVal × List Char)
  | 0, _ => none
  | fuel + 1, cs =>
      match skipWs cs with
      | [] => none
      | c :: rest =>
          if c = ']' then some (.arr [], rest)
          else
            match parseVal fuel (c :: rest) with
            | none => none
            | some (v, r1) => parseArrRest fuel [v] r1

/-- Parse the remaining elements of a JSON array after at least one element. -/
def parseArrRest : Nat → List JsonVal → List Char → Option (JsonVal × List Char)
  | 0, _, _ => none
  | fuel + 1, acc, cs =>
      match skipWs cs with
      | [] => none
      | c :: rest =>
          if c = ']' then some (.arr acc, rest)
          else if c = ',' then
            match parseVal fuel rest with
            | none => none
            | some (v, r1) => parseArrRest fuel (acc ++ [v]) r1
          else none

/-- Parse the contents of a JSON object, the opening brace already consumed. -/
def parseObj : Nat → List Char → Option (JsonVal × List Char)
  | 0, _ => none
  | fuel + 1, cs =>
      match skipWs cs with
      | [] => none
      | c :: rest =>
          if c = rbrace then some (.obj [], rest)
          else parseMember fuel [] (c :: rest)

/-- Parse one `"key": value` object member (and then the rest of the object),
accumulating members with Python-`dict` insertion semantics. -/
def parseMember : Nat → List (String × JsonVal) → List Char →
    Option (JsonVal × List Char)
  | 0, _, _ => none
  | fuel + 1, acc, cs =>
      match skipWs cs with
      | '"' :: rest =>
          match parseStringChars (rest.length + 1) rest with
          | none => none
          | some (key, r1) =>
              match skipWs r1 with
              | ':' :: r2 =>
                  match parseVal fuel r2 with
                  | none => none
                  | some (v, r3) =>
                      let acc2 := dictInsert acc (String.mk key) v
                      match skipWs r3 with
                      | [] => none
                      | c :: r4 =>
                          if c = rbrace then some (.obj acc2, r4)
                          else if c = ',' then parseMember fuel acc2 r4
                          else none
              | _ => none
      | _ => none

end

/-- Model of Python `json.loads` applied to a whole document: parse one value
and require only whitespace to remain. -/
def parseJson (s : String) : Option JsonVal :=
  match parseVal (2 * s.data.length + 2) s.data with
  | none => none
  | some (v, rest) => if (skipWs rest).isEmpty then some v else none

/-- Lowercase hexadecimal digit for `\uXXXX` escapes in `json.dump` output. -/
def hexLowerDigit (n : Nat) : Char :=
  if n < 10 then Char.ofNat (48 + n) else Char.ofNat (87 + n)

/-- Four-digit lowercase hexadecimal rendering of a code point. -/
def hex4 (n : Nat) : String :=
  String.mk [hexLowerDigit (n / 4096 % 16), hexLowerDigit (n / 256 % 16),
    hexLowerDigit (n / 16 % 16), hexLowerDigit (n % 16)]

/-- Escape one character the way `json.dump` (defaults, `ensure_ascii=True`)
renders it inside a string literal.  Code points above the basic multilingual
plane (surrogate pairs) are abstracted as a single `\uXXXX` escape. -/
def escapeChar (c : Char) : String :=
  if c = '"' then "\\\""
  else if c = '\\' then "\\\\"
  else if c = '\n' then "\\n"
  else if c = '\t' then "\\t"
  else if c = '\r' then "\\r"
  else if c = '\x08' then "\\b"
  else if c = '\x0c' then "\\f"
  else if c.toNat < 32 ∨ 128 ≤ c.toNat then "\\u" ++ hex4 c.toNat
  else String.mk [c]

/-- Render a string as a JSON string literal, `json.dump` style. -/
def dumpStr (s : String) : String :=
  "\"" ++ String.join (s.data.map escapeChar) ++ "\""

mutual

/-- Serialization of a JSON value exactly as Python's `json.dump(data, f)`
with default arguments writes it: item separator `", "`, key separator
`": "`, `ensure_ascii=True`. -/
def dumpJson : JsonVal → String
  | .null => "null"
  | .bool true => "true"
  | .bool false => "false"
  | .num n => toString n
  | .str s => dumpStr s
  | .arr xs => "[" ++ dumpList xs ++ "]"
  | .obj fs => String.mk [lbrace] ++ dumpFields fs ++ String.mk [rbrace]

/-- Array elements joined by `", "`. -/
def dumpList : List JsonVal → String
  | [] => ""
  | [x] => dumpJson x
  | x :: y :: rest => dumpJson x ++ ", " ++ dumpList (y :: rest)

/-- Object members joined by `", "`, each key and value joined by `": "`. -/
def dumpFields : List (String × JsonVal) → String
  | [] => ""
  | [(k, v)] => dumpStr k ++ ": " ++ dumpJson v
  | (k, v) :: f :: rest => dumpStr k ++ ": " ++ dumpJson v ++ ", " ++ dumpFields (f :: rest)

end

/-- Uppercase hexadecimal digit for percent-encoding. -/
def hexUpperDigit (n : Nat) : Char :=
  if n < 10 then Char.ofNat (48 + n) else Char.ofNat (55 + n)

/-- UTF-8 bytes of a Unicode code point. -/
def utf8Bytes (n : Nat) : List Nat :=
  if n < 128 then [n]
  else if n < 2048 then [192 + n / 64, 128 + n % 64]
  else if n < 65536 then [224 + n / 4096, 128 + n / 64 % 64, 128 + n % 64]
  else [240 + n / 262144, 128 + n / 4096 % 64, 128 + n / 64 % 64, 128 + n % 64]

/-- Percent-encode one byte. -/
def percentByte (b : Nat) : String :=
  String.mk ['%', hexUpperDigit (b / 16 % 16), hexUpperDigit (b % 16)]

/-- Python's `urllib.parse.quote_plus` with default arguments: ASCII letters,
digits and `_ . - ~` pass through, space becomes `+`, everything else is
percent-encoded via UTF-8. -/
def quote_plus (s : String) : String :=
  String.join (s.data.map fun c =>
    if c.isAlphanum ∨ c = '_' ∨ c = '.' ∨ c = '-' ∨ c = '~' then String.mk [c]
    else if c = ' ' then "+"
    else String.join ((utf8Bytes c.toNat).map percentByte))

/-- Python's `urllib.parse.urlencode` on a sequence of key-value pairs. -/
def urlencode : List (String × String) → String
  | [] => ""
  | [p] => quote_plus p.1 ++ "=" ++ quote_plus p.2
  | p :: q :: rest => quote_plus p.1 ++ "=" ++ quote_plus p.2 ++ "&" ++ urlencode (q :: rest)

/-! ## Model of `fetch.py` -/

/-- `BASE_URL` from `fetch.py`. -/
def BASE_URL : String := "https://api.tidesandcurrents.noaa.gov/api/prod/datagetter"

/-- `YEARS = range(2025, 2030)` from `fetch.py`. -/
def YEARS : List Nat := [2025, 2026, 2027, 2028, 2029]

/-- `REQUEST_PARAMS` from `fetch.py`, in dictionary order. -/
def REQUEST_PARAMS : List (String × String) :=
  [("product", "predictions"), ("datum", "mllw"), ("time_zone", "lst_ldt"),
   ("units", "english"), ("format", "json")]

/-- `begin_date = f"{year}0101"` from `fetch.py`. -/
def begin_date (year : Nat) : String := toString year ++ "0101"

/-- `end_date = f"{year+1}0101"` from `fetch.py`. -/
def end_date (year : Nat) : String := toString (year + 1) ++ "0101"

/-- The request parameter dictionary built in `fetch_and_save_tide_data`:
`REQUEST_PARAMS` followed by `begin_date`, `end_date` and `station`
(no key collisions, so `**REQUEST_PARAMS` merge is list append). -/
def requestParams (station_id : String) (year : Nat) : List (String × String) :=
  REQUEST_PARAMS ++
    [("begin_date", begin_date year), ("end_date", end_date year), ("station", station_id)]

/-- `url = f"{BASE_URL}?{urlencode(params)}"` from `fetch.py`. -/
def requestUrl (station_id : String) (year : Nat) : String :=
  BASE_URL ++ "?" ++ urlencode (requestParams station_id year)

/-- `station_dir = os.path.join("stations", station_id)` from `fetch.py`. -/
def station_dir (station_id : String) : String := "stations/" ++ station_id

/-- `output_file = os.path.join(station_dir, f"{year}.json.gz")` from `fetch.py`. -/
def output_file (station_id : String) (year : Nat) : String :=
  station_dir station_id ++ "/" ++ toString year ++ ".json.gz"

/-- The `Error:` log line written by `fetch_and_save_tide_data`. -/
def errorLine (station_id : String) (year : Nat) (msg : String) : String :=
  "Error: Station " ++ station_id ++ ", year " ++ toString year ++ ": " ++ msg

/-- The `Exception:` log line written by `fetch_and_save_tide_data`. -/
def exceptionLine (station_id : String) (year : Nat) (msg : String) : String :=
  "Exception: Station " ++ station_id ++ ", year " ++ toString year ++ ": " ++ msg

/-- The filesystem as `fetch.py` sees it: artifacts are keyed by path and hold
the text they decompress to (gzip round-trips, so compression is transparent
in the model); the error log is the list of its lines in order; `dirs` is the
set of directories that exist. -/
structure FsState where
  artifacts : List (String × String)
  errorLog : List String
  dirs : List String

/-- Association-list lookup of an artifact by path (models `os.path.exists`
on the artifact path, and reading the artifact back). -/
def lookupArtifact : List (String × String) → String → Option String
  | [], _ => none
  | (p, c) :: rest, q => if p = q then some c else lookupArtifact rest q

/-- `ensure_directory` from `fetch.py` (`mkdir(parents=True, exist_ok=True)`). -/
def ensure_directory (path : String) (dirs : List String) : List String :=
  if path ∈ dirs then dirs else dirs ++ [path]

/-- What one `httpx.get` call yields: a response with a status code and body
text, or a raised exception described by its message. -/
inductive HttpResult where
  | response (statusCode : Nat) (text : String)
  | exn (msg : String)

/-- The HTTP layer: the environment's answer for each URL. -/
def HttpEnv : Type := String → HttpResult

/-- One observable side effect of a `fetch_and_save_tide_data` call. -/
inductive Effect where
  | mkdirP (path : String)
  | httpGet (url : String)
  | appendLog (line : String)
  | writeArtifact (path : String)
deriving DecidableEq

/-- Result of one `fetch_and_save_tide_data` call: the returned boolean, the
filesystem afterwards, and the trace of side effects in order. -/
structure FetchResult where
  result : Bool
  state : FsState
  effects : List Effect

/-- Placeholder for the `str(e)` text of the `json.JSONDecodeError` raised by
`response.json()` on an unparseable body; the exact Python message text is
abstracted (no claim depends on it). -/
def jsonDecodeMsg : String := "JSONDecodeError"

/-- Python truthiness of a JSON-decoded value, for `not data["predictions"]`. -/
def truthy : JsonVal → Bool
  | .null => false
  | .bool b => b
  | .num n => n ≠ 0
  | .str s => ¬s.isEmpty
  | .arr xs => ¬xs.isEmpty
  | .obj fs => ¬fs.isEmpty

/-- Whether a JSON value equals the Python string `"predictions"`, for list
membership in `"predictions" not in data`. -/
def isPredStr : JsonVal → Bool
  | .str s => s = "predictions"
  | _ => false

/-- Whether `needle` occurs as a contiguous substring of `hay`, for Python's
`in` on strings. -/
def containsSub (needle : List Char) : List Char → Bool
  | [] => needle.isEmpty
  | c :: t => needle.isPrefixOf (c :: t) || containsSub needle t

/-- Characters of the literal `"predictions"`. -/
def predictionsChars : List Char :=
  ['p', 'r', 'e', 'd', 'i', 'c', 't', 'i', 'o', 'n', 's']

/-- Association-list lookup of an object field by key (after `dictInsert`
construction keys are unique, so first match is the dict entry). -/
def lookupField : List (String × JsonVal) → String → Option JsonVal
  | [], _ => none
  | (k, v) :: rest, q => if k = q then some v else lookupField rest q

/-- Outcome of evaluating `"predictions" not in data or not data["predictions"]`
on the decoded body, including the `TypeError`s Python raises when `data` is
not a container (caught by the surrounding `except`). -/
inductive PredCheck where
  | missing
  | present
  | raise (msg : String)

/-- Models line 71 of `fetch.py`:
`if "predictions" not in data or not data["predictions"]`.  For a dict this is
key lookup plus truthiness; for a list, `in` is element membership but the
subsequent subscript by a string raises `TypeError`; for a string, `in` is a
substring test but the subscript raises `TypeError`; for other types `in`
itself raises `TypeError`. -/
def checkPredictions : JsonVal → PredCheck
  | .obj fs =>
      match lookupField fs ("predictions") with
      | none => .missing
      | some v => if truthy v then .present else .missing
  | .arr xs =>
      if xs.any isPredStr then .raise ("list indices must be integers or slices, not str")
      else .missing
  | .str s =>
      if containsSub predictionsChars s.data then .raise ("string indices must be integers")
      else .missing
  | .num _ => .raise ("argument of type 'int' is not iterable")
  | .bool _ => .raise ("argument of type 'bool' is not iterable")
  | .null => .raise ("argument of type 'NoneType' is not iterable")

/-- `fetch_and_save_tide_data(station_id, year)` from `fetch.py`, as a
transition on the modelled filesystem under an HTTP environment.  The returned
trace lists the call's side effects in program order. -/
def fetch_and_save_tide_data (env : HttpEnv) (station_id : String) (year : Nat)
    (s : FsState) : FetchResult :=
  let url := requestUrl station_id year
  let dir := station_dir station_id
  let s1 : FsState := { s with dirs := ensure_directory dir s.dirs }
  let out := output_file station_id year
  if (lookupArtifact s1.artifacts out).isSome then
    { result := true, state := s1, effects := [.mkdirP dir] }
  else
    match env url with
    | .exn msg =>
        let line := exceptionLine station_id year msg
        { result := false,
          state := { s1 with errorLog := s1.errorLog ++ [line] },
          effects := [.mkdirP dir, .httpGet url, .appendLog line] }
    | .response status text =>
        if status ≠ 200 then
          let line := errorLine station_id year ("HTTP " ++ toString status)
          { result := false,
            state := { s1 with errorLog := s1.errorLog ++ [line] },
            effects := [.mkdirP dir, .httpGet url, .appendLog line] }
        else
          match parseJson text with
          | none =>
              let line := exceptionLine station_id year jsonDecodeMsg
              { result := false,
                state := { s1 with errorLog := s1.errorLog ++ [line] },
                effects := [.mkdirP dir, .httpGet url, .appendLog line] }
          | some data =>
              match checkPredictions data with
              | .raise msg =>
                  let line := exceptionLine station_id year msg
                  { result := false,
                    state := { s1 with errorLog := s1.errorLog ++ [line] },
                    effects := [.mkdirP dir, .httpGet url, .appendLog line] }
              | .missing =>
                  let line := errorLine station_id year ("No predictions data")
                  { result := false,
                    state := { s1 with errorLog := s1.errorLog ++ [line] },
                    effects := [.mkdirP dir, .httpGet url, .appendLog line] }
              | .present =>
                  { result := true,
                    state := { s1 with artifacts := s1.artifacts ++ [(out, dumpJson data)] },
                    effects := [.mkdirP dir, .httpGet url, .writeArtifact out] }

/-- The two counters tracked by `main` in `fetch.py` (lines 104-105 and
125-128): there is no third counter for skipped keys. -/
structure RunStats where
  successful_requests : Nat
  failed_requests : Nat
deriving DecidableEq

/-- The inner driver loop of `main` over a list of `(station_id, year)` keys:
call `fetch_and_save_tide_data` for each and bump `successful_requests` on a
`True` result, `failed_requests` on a `False` result. -/
def runPairs (env : HttpEnv) : List (String × Nat) → RunStats → FsState →
    RunStats × FsState × List Effect
  | [], stats, s => (stats, s, [])
  | k :: ks, stats, s =>
      let r := fetch_and_save_tide_data env k.1 k.2 s
      let stats1 :=
        if r.result then
          { stats with successful_requests := stats.successful_requests + 1 }
        else
          { stats with failed_requests := stats.failed_requests + 1 }
      let rest := runPairs env ks stats1 r.state
      (rest.1, rest.2.1, r.effects ++ rest.2.2)

/-- The full cross product iterated by `main`: stations in list order, years
in ascending order within each station. -/
def allKeys (stations : List (String × String)) : List (String × Nat) :=
  (stations.map (fun st => YEARS.map (fun y => (st.1, y)))).flatten

/-- Number of HTTP GET requests in an effect trace. -/
def requestCount (effs : List Effect) : Nat :=
  effs.countP fun e => match e with | .httpGet _ => true | _ => false

/-- Number of artifact writes in an effect trace. -/
def writeCount (effs : List Effect) : Nat :=
  effs.countP fun e => match e with | .writeArtifact _ => true | _ => false

/-- Number of error-log appends in an effect trace. -/
def appendCount (effs : List Effect) : Nat :=
  effs.countP fun e => match e with | .appendLog _ => true | _ => false

/-! ## Model of `display_errors.py` -/

/-- Characters of the fixed literal `"Error: Station "` that opens the
regex pattern in `display_errors.py`. -/
def patErrorStation : List Char :=
  ['E', 'r', 'r', 'o', 'r', ':', ' ', 'S', 't', 'a', 't', 'i', 'o', 'n', ' ']

/-- Characters of the literal `", year "` in the middle of the pattern. -/
def patYearSep : List Char := [',', ' ', 'y', 'e', 'a', 'r', ' ']

/-- Characters of the literal `": "` before the message group. -/
def patMsgSep : List Char := [':', ' ']

/-- Characters of the tag `"Exception:"` that opens exception log lines. -/
def exceptionTag : List Char := ['E', 'x', 'c', 'e', 'p', 't', 'i', 'o', 'n', ':']

/-- The anchored match of `re.match(r"Error: Station (\d+), year (\d+): (.+)",
line)` on the characters of a line: the fixed literals in order, a maximal
nonempty digit run for each `(\d+)` (greedy matching backtracks to nothing
else, since the following literal starts with a non-digit), and a nonempty
remainder for `(.+)` stopping at a newline (`.` does not match `\n`).
Returns the three captured groups. -/
def parseLineChars (cs : List Char) : Option (String × String × String) :=
  match stripLit patErrorStation cs with
  | none => none
  | some cs1 =>
      let sid := cs1.takeWhile Char.isDigit
      let cs2 := cs1.dropWhile Char.isDigit
      if sid.isEmpty then none
      else
        match stripLit patYearSep cs2 with
        | none => none
        | some cs3 =>
            let yr := cs3.takeWhile Char.isDigit
            let cs4 := cs3.dropWhile Char.isDigit
            if yr.isEmpty then none
            else
              match stripLit patMsgSep cs4 with
              | none => none
              | some cs5 =>
                  let msg := cs5.takeWhile (fun c => c ≠ '\n')
                  if msg.isEmpty then none
                  else some (String.mk sid, String.mk yr, String.mk msg)

/-- Pattern match of a log line, on strings. -/
def parseLine (line : String) : Option (String × String × String) :=
  parseLineChars line.data

/-- The in-memory grouping `station_errors`: station id, then message, then
the years in append order; both levels keep first-seen (insertion) order,
as `defaultdict` does. -/
abbrev Grouped : Type := List (String × List (String × List String))

/-- Append a year to a message's list inside one station's message map,
creating the message at the end on first sight. -/
def addYear : List (String × List String) → String → String →
    List (String × List String)
  | [], msg, yr => [(msg, [yr])]
  | (m, ys) :: rest, msg, yr =>
      if m = msg then (m, ys ++ [yr]) :: rest else (m, ys) :: addYear rest msg yr

/-- Record one matched line in the grouping, creating the station at the end
on first sight. -/
def addEntry : Grouped → String → String → String → Grouped
  | [], sid, msg, yr => [(sid, [(msg, [yr])])]
  | (s, msgs) :: rest, sid, msg, yr =>
      if s = sid then (s, addYear msgs msg yr) :: rest
      else (s, msgs) :: addEntry rest sid msg yr

/-- Process one log line: a non-matching line leaves the grouping unchanged,
a matching line records its `(station_id, message, year)` groups. -/
def addLine (g : Grouped) (line : String) : Grouped :=
  match parseLine line with
  | none => g
  | some (sid, yr, msg) => addEntry g sid msg yr

/-- The log-reading loop of `display_errors.py`: fold all lines into the
grouping in file order. -/
def buildGroups (lines : List String) : Grouped := lines.foldl addLine []

/-- The lookup dictionary `station_dict = {station['id']: station['name']}`
applied to an id: with duplicate ids the last entry wins, as in a Python
dict comprehension. -/
def station_dict : List (String × String) → String → Option String
  | [], _ => none
  | (i, n) :: rest, sid =>
      match station_dict rest sid with
      | some r => some r
      | none => if i = sid then some n else none

/-- The display rewrite: the literal message `No predictions data` renders as
`Missing`, every other message verbatim. -/
def display_message (m : String) : String :=
  if m = "No predictions data" then "Missing" else m

/-- Lexicographic (code-point) comparison of strings, as Python compares
`str` values. -/
def charListLe : List Char → List Char → Bool
  | [], _ => true
  | _ :: _, [] => false
  | x :: xr, y :: yr => if x < y then true else if y < x then false else charListLe xr yr

/-- Insert a string into an already sorted list, keeping it sorted. -/
def insertSorted (x : String) : List String → List String
  | [] => [x]
  | y :: ys => if charListLe x.data y.data then x :: y :: ys else y :: insertSorted x ys

/-- Python's `sorted` on a list of strings (insertion sort; comparison is
lexicographic by code point, which is what `sorted(years)` uses). -/
def sortStrings (l : List String) : List String := l.foldr insertSorted []

/-- `", ".join(sorted(years))` from `display_errors.py`. -/
def yearsStr (ys : List String) : String := ", ".intercalate (sortStrings ys)

/-- The whole report printed by `display_errors.py`, one entry per station in
grouping order: the station id, its resolved display name
(`station_dict.get(station_id, "Unknown Station")`), and per message in
grouping order the rewritten message with its sorted year string. -/
def summarize (stations : List (String × String)) (lines : List String) :
    List (String × String × List (String × String)) :=
  (buildGroups lines).map fun e =>
    (e.1, (station_dict stations e.1).getD ("Unknown Station"),
     e.2.map fun me => (display_message me.1, yearsStr me.2))

/-! ## Concrete fixtures used by witnesses and counterexamples -/

/-- A filesystem with no artifacts, an empty log and no directories. -/
def emptyState : FsState := ⟨[], [], []⟩

/-- A response body with a non-empty `predictions` array, serialized without
a space after the colon (as compact server output is). -/
def rawBody : String := "\x7b\"predictions\":[\"x\"]\x7d"

/-- The parse of `rawBody`. -/
def rawBodyVal : JsonVal := .obj [("predictions", .arr [.str ("x")])]

/-- An HTTP layer that always answers 200 with `rawBody`. -/
def envOk : HttpEnv := fun _ => .response 200 rawBody

/-- An HTTP layer that always answers 201 (a 2xx status) with `rawBody`. -/
def env201 : HttpEnv := fun _ => .response 201 rawBody

/-- An HTTP layer that always answers 404. -/
def env404 : HttpEnv := fun _ => .response 404 rawBody

/-- A filesystem that already holds an artifact for the given key. -/
def stateWith (sid : String) (yr : Nat) : FsState :=
  ⟨[(output_file sid yr, "x")], [], []⟩

end NoaaTides

namespace NoaaTides

/-! ## Branch lemmas for `fetch_and_save_tide_data` -/

/-- The skip branch (lines 53-55 of `fetch.py`): an existing artifact returns
`True` at once, with directory creation as the only side effect. -/
theorem fetch_exists (env : HttpEnv) (sid : String) (yr : Nat) (s : FsState)
    (h : (lookupArtifact s.artifacts (output_file sid yr)).isSome = true) :
    fetch_and_save_tide_data env sid yr s =
      { result := true,
        state := ⟨s.artifacts, s.errorLog, ensure_directory (station_dir sid) s.dirs⟩,
        effects := [.mkdirP (station_dir sid)] } := by
  simp [fetch_and_save_tide_data, h]

/-- The exception branch: the request raises, one `Exception:` line is
appended, `False` returned. -/
theorem fetch_exn (env : HttpEnv) (sid : String) (yr : Nat) (s : FsState)
    (msg : String)
    (h : lookupArtifact s.artifacts (output_file sid yr) = none)
    (he : env (requestUrl sid yr) = .exn msg) :
    fetch_and_save_tide_data env sid yr s =
      { result := false,
        state := ⟨s.artifacts, s.errorLog ++ [exceptionLine sid yr msg],
          ensure_directory (station_dir sid) s.dirs⟩,
        effects := [.mkdirP (station_dir sid), .httpGet (requestUrl sid yr),
          .appendLog (exceptionLine sid yr msg)] } := by
  simp [fetch_and_save_tide_data, h, he]

/-- The HTTP-error branch (line 61: `status_code != 200`): one `Error:` line
with the status code, `False` returned. -/
theorem fetch_badStatus (env : HttpEnv) (sid : String) (yr : Nat) (s : FsState)
    (status : Nat) (text : String)
    (h : lookupArtifact s.artifacts (output_file sid yr) = none)
    (he : env (requestUrl sid yr) = .response status text)
    (hs : status ≠ 200) :
    fetch_and_save_tide_data env sid yr s =
      { result := false,
        state := ⟨s.artifacts,
          s.errorLog ++ [errorLine sid yr ("HTTP " ++ toString status)],
          ensure_directory (station_dir sid) s.dirs⟩,
        effects := [.mkdirP (station_dir sid), .httpGet (requestUrl sid yr),
          .appendLog (errorLine sid yr ("HTTP " ++ toString status))] } := by
  simp [fetch_and_save_tide_data, h, he, hs]

/-- The JSON-decode failure branch: `response.json()` raises, one
`Exception:` line is appended, `False` returned. -/
theorem fetch_parseFail (env : HttpEnv) (sid : String) (yr : Nat) (s : FsState)
    (text : String)
    (h : lookupArtifact s.artifacts (output_file sid yr) = none)
    (he : env (requestUrl sid yr) = .response 200 text)
    (hp : parseJson text = none) :
    fetch_and_save_tide_data env sid yr s =
      { result := false,
        state := ⟨s.artifacts, s.errorLog ++ [exceptionLine sid yr jsonDecodeMsg],
          ensure_directory (station_dir sid) s.dirs⟩,
        effects := [.mkdirP (station_dir sid), .httpGet (requestUrl sid yr),
          .appendLog (exceptionLine sid yr jsonDecodeMsg)] } := by
  simp [fetch_and_save_tide_data, h, he, hp]

/-- The missing-predictions branch (lines 71-74): one `Error:` line with
message `No predictions data`, `False` returned. -/
theorem fetch_noPred (env : HttpEnv) (sid : String) (yr : Nat) (s : FsState)
    (text : String) (data : JsonVal)
    (h : lookupArtifact s.artifacts (output_file sid yr) = none)
    (he : env (requestUrl sid yr) = .response 200 text)
    (hp : parseJson text = some data)
    (hc : checkPredictions data = .missing) :
    fetch_and_save_tide_data env sid yr s =
      { result := false,
        state := ⟨s.artifacts,
          s.errorLog ++ [errorLine sid yr ("No predictions data")],
          ensure_directory (station_dir sid) s.dirs⟩,
        effects := [.mkdirP (station_dir sid), .httpGet (requestUrl sid yr),
          .appendLog (errorLine sid yr ("No predictions data"))] } := by
  simp [fetch_and_save_tide_data, h, he, hp, hc]

/-- The branch where the predictions check itself raises a `TypeError`: one
`Exception:` line, `False` returned. -/
theorem fetch_checkRaise (env : HttpEnv) (sid : String) (yr : Nat) (s : FsState)
    (text : String) (data : JsonVal) (msg : String)
    (h : lookupArtifact s.artifacts (output_file sid yr) = none)
    (he : env (requestUrl sid yr) = .response 200 text)
    (hp : parseJson text = some data)
    (hc : checkPredictions data = .raise msg) :
    fetch_and_save_tide_data env sid yr s =
      { result := false,
        state := ⟨s.artifacts, s.errorLog ++ [exceptionLine sid yr msg],
          ensure_directory (station_dir sid) s.dirs⟩,
        effects := [.mkdirP (station_dir sid), .httpGet (requestUrl sid yr),
          .appendLog (exceptionLine sid yr msg)] } := by
  simp [fetch_and_save_tide_data, h, he, hp, hc]

/-- The success branch (lines 77-80): the artifact is written with the
`json.dump` serialization of the parsed body, `True` returned, no log entry. -/
theorem fetch_success (env : HttpEnv) (sid : String) (yr : Nat) (s : FsState)
    (text : String) (data : JsonVal)
    (h : lookupArtifact s.artifacts (output_file sid yr) = none)
    (he : env (requestUrl sid yr) = .response 200 text)
    (hp : parseJson text = some data)
    (hc : checkPredictions data = .present) :
    fetch_and_save_tide_data env sid yr s =
      { result := true,
        state := ⟨s.artifacts ++ [(output_file sid yr, dumpJson data)],
          s.errorLog, ensure_directory (station_dir sid) s.dirs⟩,
        effects := [.mkdirP (station_dir sid), .httpGet (requestUrl sid yr),
          .writeArtifact (output_file sid yr)] } := by
  simp [fetch_and_save_tide_data, h, he, hp, hc]

/-- The created directory is in the directory set `ensure_directory` yields. -/
theorem mem_ensure_directory (p : String) (ds : List String) :
    p ∈ ensure_directory p ds := by
  unfold ensure_directory
  split
  · assumption
  · simp

/-- Exhaustive shape analysis of one `fetch_and_save_tide_data` call: a call
is a skip (artifact already present, returns `True`, no request), a failure
(returns `False`, no write, exactly one log append), or a success (returns
`True`, exactly one artifact write, no append). -/
theorem fetch_cases (env : HttpEnv) (sid : String) (yr : Nat) (s : FsState) :
    ((lookupArtifact s.artifacts (output_file sid yr)).isSome = true ∧
      fetch_and_save_tide_data env sid yr s =
        { result := true,
          state := ⟨s.artifacts, s.errorLog, ensure_directory (station_dir sid) s.dirs⟩,
          effects := [.mkdirP (station_dir sid)] }) ∨
    (lookupArtifact s.artifacts (output_file sid yr) = none ∧
      ((∃ line, fetch_and_save_tide_data env sid yr s =
          { result := false,
            state := ⟨s.artifacts, s.errorLog ++ [line],
              ensure_directory (station_dir sid) s.dirs⟩,
            effects := [.mkdirP (station_dir sid), .httpGet (requestUrl sid yr),
              .appendLog line] }) ∨
        (∃ content, fetch_and_save_tide_data env sid yr s =
          { result := true,
            state := ⟨s.artifacts ++ [(output_file sid yr, content)], s.errorLog,
              ensure_directory (station_dir sid) s.dirs⟩,
            effects := [.mkdirP (station_dir sid), .httpGet (requestUrl sid yr),
              .writeArtifact (output_file sid yr)] }))) := by
  by_cases hex : (lookupArtifact s.artifacts (output_file sid yr)).isSome = true
  · exact Or.inl ⟨hex, fetch_exists env sid yr s hex⟩
  · have h0 : lookupArtifact s.artifacts (output_file sid yr) = none :=
      Option.not_isSome_iff_eq_none.mp (by simpa using hex)
    refine Or.inr ⟨h0, ?_⟩
    cases he : env (requestUrl sid yr) with
    | exn msg =>
        exact Or.inl ⟨_, fetch_exn env sid yr s msg h0 he⟩
    | response status text =>
        by_cases hs : status = 200
        · subst hs
          cases hp : parseJson text with
          | none => exact Or.inl ⟨_, fetch_parseFail env sid yr s text h0 he hp⟩
          | some data =>
              cases hc : checkPredictions data with
              | missing => exact Or.inl ⟨_, fetch_noPred env sid yr s text data h0 he hp hc⟩
              | present => exact Or.inr ⟨_, fetch_success env sid yr s text data h0 he hp hc⟩
              | raise msg => exact Or.inl ⟨_, fetch_checkRaise env sid yr s text data msg h0 he hp hc⟩
        · exact Or.inl ⟨_, fetch_badStatus env sid yr s status text h0 he hs⟩

/-! ## Claims -/

/-- C10: every call to `fetch_and_save_tide_data` creates (if absent) the
directory `stations/<station_id>` before the artifact-existence check: the
first recorded side effect of every call is the directory creation, and the
directory exists afterwards, also for calls that skip or fail. -/
theorem claim_C10 : ∀ (env : HttpEnv) (sid : String) (yr : Nat) (s : FsState),
    (fetch_and_save_tide_data env sid yr s).effects.head? =
      some (.mkdirP (station_dir sid)) ∧
    station_dir sid ∈ (fetch_and_save_tide_data env sid yr s).state.dirs := by
  intro env sid yr s
  rcases fetch_cases env sid yr s with ⟨_, hq⟩ | ⟨_, ⟨line, hq⟩ | ⟨content, hq⟩⟩ <;>
    rw [hq] <;> exact ⟨rfl, mem_ensure_directory _ _⟩

/-- C6: for every year in the fetched range the request window runs from
`<Y>0101` to `<Y+1>0101`, both eight digits, and both parameters are sent;
in particular 2029 yields the end date `20300101` (no off-by-one at the
year boundary). -/
theorem claim_C6 :
    (∀ y, y ∈ YEARS →
      begin_date y = toString y ++ "0101" ∧
      end_date y = toString (y + 1) ++ "0101" ∧
      (begin_date y).length = 8 ∧ (end_date y).length = 8 ∧
      ((begin_date y).data.all Char.isDigit) = true ∧
      ((end_date y).data.all Char.isDigit) = true ∧
      ∀ sid : String, ("begin_date", begin_date y) ∈ requestParams sid y ∧
        ("end_date", end_date y) ∈ requestParams sid y) ∧
    begin_date 2029 = "20290101" ∧ end_date 2029 = "20300101" := by
  refine ⟨?_, by decide, by decide⟩
  intro y hy
  have hmem : ∀ sid : String, ("begin_date", begin_date y) ∈ requestParams sid y ∧
      ("end_date", end_date y) ∈ requestParams sid y := by
    intro sid
    constructor <;> simp [requestParams, REQUEST_PARAMS]
  fin_cases hy <;>
    exact ⟨by decide, by decide, by decide, by decide, by decide, by decide, hmem⟩

/-- C6 witness: the theorem applied at the concrete year 2029. -/
theorem claim_C6_witness :
    (begin_date 2029).length = 8 ∧ (end_date 2029).length = 8 :=
  ⟨(claim_C6.1 2029 (by decide)).2.2.1, (claim_C6.1 2029 (by decide)).2.2.2.1⟩

/-- C3 counterexample: the code has no `Skipped` outcome distinct from
`Success` and no third counter.  A call whose artifact exists returns the
very same value (`True`) as a successful fetch (the first call makes no
request, the second makes one, so they differ in kind), and the driver
counts the skipped key in `successful_requests`, its statistics being the
two-field record `⟨successful_requests, failed_requests⟩ = ⟨1, 0⟩`. -/
theorem claim_C3_counterexample :
    (fetch_and_save_tide_data envOk ("9414290") 2025 (stateWith ("9414290") 2025)).result =
      (fetch_and_save_tide_data envOk ("9410230") 2025 emptyState).result ∧
    requestCount (fetch_and_save_tide_data envOk ("9414290") 2025
      (stateWith ("9414290") 2025)).effects = 0 ∧
    requestCount (fetch_and_save_tide_data envOk ("9410230") 2025 emptyState).effects = 1 ∧
    (runPairs envOk [(("9414290" : String), 2025)] ⟨0, 0⟩
      (stateWith ("9414290") 2025)).1 = ⟨1, 0⟩ := by
  refine ⟨rfl, rfl, rfl, ?_⟩
  decide

/-- C3 as amended: when an artifact already exists the call returns `True`
immediately with no HTTP request — the same value as a success, not a
distinct `Skipped` outcome — and the driver loop tracks exactly two running
counts, incrementing `successful_requests` for the skipped key. -/
theorem claim_C3 :
    (∀ (env : HttpEnv) (sid : String) (yr : Nat) (s : FsState),
      (lookupArtifact s.artifacts (output_file sid yr)).isSome = true →
      (fetch_and_save_tide_data env sid yr s).result = true ∧
      requestCount (fetch_and_save_tide_data env sid yr s).effects = 0) ∧
    (∀ (env : HttpEnv) (sid : String) (yr : Nat) (s : FsState) (stats : RunStats),
      (lookupArtifact s.artifacts (output_file sid yr)).isSome = true →
      (runPairs env [(sid, yr)] stats s).1 =
        { stats with successful_requests := stats.successful_requests + 1 }) := by
  constructor
  · intro env sid yr s h
    rw [fetch_exists env sid yr s h]
    exact ⟨rfl, rfl⟩
  · intro env sid yr s stats h
    simp [runPairs, fetch_exists env sid yr s h]

/-- C3 witness: the amended theorem applied at a concrete skipped key. -/
theorem claim_C3_witness :
    (fetch_and_save_tide_data envOk ("9414290") 2025 (stateWith ("9414290") 2025)).result = true ∧
    (runPairs envOk [(("9414290" : String), 2025)] ⟨3, 4⟩ (stateWith ("9414290") 2025)).1 =
      ⟨4, 4⟩ :=
  ⟨(claim_C3.1 envOk ("9414290") 2025 (stateWith ("9414290") 2025) (by decide)).1,
   claim_C3.2 envOk ("9414290") 2025 (stateWith ("9414290") 2025) ⟨3, 4⟩ (by decide)⟩

/-- C2 counterexample: 201 is a 2xx status, yet the code (which tests
`status_code != 200`) classifies it as an HTTP error, appends the
`HTTP 201` error line and returns `False` — even though the delivered body
is valid and has a non-empty predictions array. -/
theorem claim_C2_counterexample :
    (200 ≤ 201 ∧ 201 < 300) ∧
    (fetch_and_save_tide_data env201 ("9414290") 2025 emptyState).result = false ∧
    (fetch_and_save_tide_data env201 ("9414290") 2025 emptyState).state.errorLog =
      [("Error: Station 9414290, year 2025: HTTP 201")] := by
  refine ⟨by decide, by decide, by decide⟩

/-- C2 as amended: only the exact status 200 avoids the HTTP-error
classification.  Any other status — including other 2xx statuses — appends
exactly the `Error: Station <id>, year <year>: HTTP <status>` line and
returns `False`; on status 200 no HTTP error line is appended (the log
either stays unchanged or grows by an `Exception:` line or the
`No predictions data` line). -/
theorem claim_C2 : ∀ (env : HttpEnv) (sid : String) (yr : Nat) (s : FsState)
    (status : Nat) (text : String),
    lookupArtifact s.artifacts (output_file sid yr) = none →
    env (requestUrl sid yr) = .response status text →
    (status ≠ 200 →
      (fetch_and_save_tide_data env sid yr s).result = false ∧
      (fetch_and_save_tide_data env sid yr s).state.errorLog =
        s.errorLog ++ [errorLine sid yr ("HTTP " ++ toString status)]) ∧
    (status = 200 →
      (fetch_and_save_tide_data env sid yr s).state.errorLog = s.errorLog ∨
      (∃ m, (fetch_and_save_tide_data env sid yr s).state.errorLog =
        s.errorLog ++ [exceptionLine sid yr m]) ∨
      (fetch_and_save_tide_data env sid yr s).state.errorLog =
        s.errorLog ++ [errorLine sid yr ("No predictions data")]) := by
  intro env sid yr s status text h he
  constructor
  · intro hs
    rw [fetch_badStatus env sid yr s status text h he hs]
    exact ⟨rfl, rfl⟩
  · intro hs
    subst hs
    cases hp : parseJson text with
    | none =>
        exact Or.inr (Or.inl ⟨_, by rw [fetch_parseFail env sid yr s text h he hp]⟩)
    | some data =>
        cases hc : checkPredictions data with
        | missing =>
            exact Or.inr (Or.inr (by rw [fetch_noPred env sid yr s text data h he hp hc]))
        | present =>
            exact Or.inl (by rw [fetch_success env sid yr s text data h he hp hc])
        | raise msg =>
            exact Or.inr (Or.inl ⟨msg,
              by rw [fetch_checkRaise env sid yr s text data msg h he hp hc]⟩)

/-- C2 witness: the amended theorem applied at a concrete 404 response. -/
theorem claim_C2_witness :
    (fetch_and_save_tide_data env404 ("9414290") 2025 emptyState).result = false ∧
    (fetch_and_save_tide_data env404 ("9414290") 2025 emptyState).state.errorLog =
      emptyState.errorLog ++ [errorLine ("9414290") 2025 ("HTTP " ++ toString 404)] :=
  (claim_C2 env404 ("9414290") 2025 emptyState 404 rawBody rfl rfl).1 (by decide)

/-- C4 counterexample: on a 200 response whose body is valid JSON with a
non-empty predictions array but is serialized compactly, the persisted
artifact is the `json.dump` re-serialization of the parsed body, which
differs byte-for-byte from the raw response body (the code round-trips
through `response.json()` and `json.dump`, which inserts spaces after
separators). -/
theorem claim_C4_counterexample :
    parseJson rawBody = some rawBodyVal ∧
    checkPredictions rawBodyVal = .present ∧
    lookupArtifact (fetch_and_save_tide_data envOk ("9414290") 2025 emptyState).state.artifacts
      (output_file ("9414290") 2025) = some (dumpJson rawBodyVal) ∧
    dumpJson rawBodyVal ≠ rawBody ∧
    (fetch_and_save_tide_data envOk ("9414290") 2025 emptyState).state.errorLog = [] := by
  refine ⟨rfl, rfl, rfl, by decide, rfl⟩

/-- C4 as amended: for every key where the endpoint returns 200 with a body
that parses to JSON with a non-empty predictions field, the persisted
artifact decompresses to exactly the `json.dump` re-serialization of the
parsed response body (JSON-equivalent to, but not in general byte-identical
with, the raw body), and no log entry is written for that key. -/
theorem claim_C4 : ∀ (env : HttpEnv) (sid : String) (yr : Nat) (s : FsState)
    (text : String) (data : JsonVal),
    lookupArtifact s.artifacts (output_file sid yr) = none →
    env (requestUrl sid yr) = .response 200 text →
    parseJson text = some data →
    checkPredictions data = .present →
    (fetch_and_save_tide_data env sid yr s).result = true ∧
    (fetch_and_save_tide_data env sid yr s).state.artifacts =
      s.artifacts ++ [(output_file sid yr, dumpJson data)] ∧
    (fetch_and_save_tide_data env sid yr s).state.errorLog = s.errorLog ∧
    appendCount (fetch_and_save_tide_data env sid yr s).effects = 0 := by
  intro env sid yr s text data h he hp hc
  rw [fetch_success env sid yr s text data h he hp hc]
  exact ⟨rfl, rfl, rfl, rfl⟩

/-- C4 witness: the amended theorem applied at a concrete 200 response. -/
theorem claim_C4_witness :
    (fetch_and_save_tide_data envOk ("9414290") 2025 emptyState).state.artifacts =
      emptyState.artifacts ++ [(output_file ("9414290") 2025, dumpJson rawBodyVal)] ∧
    appendCount (fetch_and_save_tide_data envOk ("9414290") 2025 emptyState).effects = 0 :=
  ⟨(claim_C4 envOk ("9414290") 2025 emptyState rawBody rawBodyVal rfl rfl rfl rfl).2.1,
   (claim_C4 envOk ("9414290") 2025 emptyState rawBody rawBodyVal rfl rfl rfl rfl).2.2.2⟩

/-- C1: whenever `fetch_and_save_tide_data` returns `False`, no artifact
exists at the derived path and exactly one error-log line was appended; and
for every non-skipped call, the artifact write and the log append are
mutually exclusive and exactly one of the two happens. -/
theorem claim_C1 : ∀ (env : HttpEnv) (sid : String) (yr : Nat) (s : FsState),
    ((fetch_and_save_tide_data env sid yr s).result = false →
      lookupArtifact (fetch_and_save_tide_data env sid yr s).state.artifacts
        (output_file sid yr) = none ∧
      (∃ line, (fetch_and_save_tide_data env sid yr s).state.errorLog =
        s.errorLog ++ [line]) ∧
      writeCount (fetch_and_save_tide_data env sid yr s).effects = 0 ∧
      appendCount (fetch_and_save_tide_data env sid yr s).effects = 1) ∧
    (lookupArtifact s.artifacts (output_file sid yr) = none →
      writeCount (fetch_and_save_tide_data env sid yr s).effects +
        appendCount (fetch_and_save_tide_data env sid yr s).effects = 1) := by
  intro env sid yr s
  rcases fetch_cases env sid yr s with ⟨hex, hq⟩ | ⟨hex, ⟨line, hq⟩ | ⟨content, hq⟩⟩
  · rw [hq]
    constructor
    · intro hfalse
      simp at hfalse
    · intro h0
      rw [h0] at hex
      simp at hex
  · rw [hq]
    exact ⟨fun _ => ⟨hex, ⟨line, rfl⟩, rfl, rfl⟩, fun _ => rfl⟩
  · rw [hq]
    constructor
    · intro hfalse
      simp at hfalse
    · intro _
      rfl

/-- C1 witness: the theorem applied at a concrete failing (404) call. -/
theorem claim_C1_witness :
    lookupArtifact (fetch_and_save_tide_data env404 ("9414290") 2025 emptyState).state.artifacts
      (output_file ("9414290") 2025) = none ∧
    writeCount (fetch_and_save_tide_data env404 ("9414290") 2025 emptyState).effects +
      appendCount (fetch_and_save_tide_data env404 ("9414290") 2025 emptyState).effects = 1 :=
  ⟨((claim_C1 env404 ("9414290") 2025 emptyState).1 (by decide)).1,
   (claim_C1 env404 ("9414290") 2025 emptyState).2 rfl⟩

/-- Appending artifacts on the right cannot make a present artifact absent. -/
theorem lookupArtifact_append_isSome (l l2 : List (String × String)) (q : String)
    (h : (lookupArtifact l q).isSome = true) :
    (lookupArtifact (l ++ l2) q).isSome = true := by
  induction l with
  | nil => simp [lookupArtifact] at h
  | cons p rest ih =>
      obtain ⟨a, b⟩ := p
      by_cases hpq : a = q
      · simp [lookupArtifact, hpq]
      · simp only [List.cons_append, lookupArtifact, if_neg hpq] at h ⊢
        exact ih h

/-- An artifact just appended is present. -/
theorem lookupArtifact_append_self (l : List (String × String)) (k v : String) :
    (lookupArtifact (l ++ [(k, v)]) k).isSome = true := by
  induction l with
  | nil => simp [lookupArtifact]
  | cons p rest ih =>
      obtain ⟨a, b⟩ := p
      by_cases h : a = k
      · simp [lookupArtifact, h]
      · simp only [List.cons_append, lookupArtifact, if_neg h]
        exact ih

/-- A call that returned `True` leaves the artifact for its key present. -/
theorem fetch_true_exists (env : HttpEnv) (sid : String) (yr : Nat) (s : FsState)
    (h : (fetch_and_save_tide_data env sid yr s).result = true) :
    (lookupArtifact (fetch_and_save_tide_data env sid yr s).state.artifacts
      (output_file sid yr)).isSome = true := by
  rcases fetch_cases env sid yr s with ⟨hex, hq⟩ | ⟨hex, ⟨line, hq⟩ | ⟨content, hq⟩⟩
  · rw [hq]
    exact hex
  · rw [hq] at h
    simp at h
  · rw [hq]
    exact lookupArtifact_append_self _ _ _

/-- No call removes an artifact: artifacts present before a call are present
after it (the code only ever writes, never deletes). -/
theorem fetch_preserves_artifact (env : HttpEnv) (sid : String) (yr : Nat)
    (s : FsState) (p : String)
    (h : (lookupArtifact s.artifacts p).isSome = true) :
    (lookupArtifact (fetch_and_save_tide_data env sid yr s).state.artifacts p).isSome
      = true := by
  rcases fetch_cases env sid yr s with ⟨_, hq⟩ | ⟨_, ⟨line, hq⟩ | ⟨content, hq⟩⟩ <;> rw [hq]
  · exact h
  · exact h
  · exact lookupArtifact_append_isSome _ _ _ h

/-- The driver loop never removes an artifact either. -/
theorem runPairs_preserves_artifact (env : HttpEnv) (keys : List (String × Nat))
    (stats : RunStats) (s : FsState) (p : String)
    (h : (lookupArtifact s.artifacts p).isSome = true) :
    (lookupArtifact (runPairs env keys stats s).2.1.artifacts p).isSome = true := by
  induction keys generalizing stats s with
  | nil => simpa [runPairs] using h
  | cons k ks ih =>
      simp only [runPairs]
      exact ih _ _ (fetch_preserves_artifact env k.1 k.2 s p h)

/-- The failure counter never decreases along the driver loop. -/
theorem runPairs_failed_mono (env : HttpEnv) (keys : List (String × Nat))
    (stats : RunStats) (s : FsState) :
    stats.failed_requests ≤ (runPairs env keys stats s).1.failed_requests := by
  induction keys generalizing stats s with
  | nil => simp [runPairs]
  | cons k ks ih =>
      simp only [runPairs]
      refine le_trans ?_ (ih _ _)
      split
      · exact le_rfl
      · exact Nat.le_succ _

/-- If a run added no failures, every key of the run has its artifact present
in the final state (each call either skipped an existing artifact or wrote
one). -/
theorem runPairs_failed_zero (env : HttpEnv) (keys : List (String × Nat))
    (stats : RunStats) (s : FsState)
    (h : (runPairs env keys stats s).1.failed_requests = stats.failed_requests) :
    ∀ k ∈ keys, (lookupArtifact (runPairs env keys stats s).2.1.artifacts
      (output_file k.1 k.2)).isSome = true := by
  induction keys generalizing stats s with
  | nil =>
      intro k hk
      cases hk
  | cons k0 ks ih =>
      intro k hk
      simp only [runPairs] at h ⊢
      by_cases hr : (fetch_and_save_tide_data env k0.1 k0.2 s).result = true
      · rw [if_pos hr] at h ⊢
        rcases List.mem_cons.mp hk with rfl | hk2
        · exact runPairs_preserves_artifact env ks _ _ _
            (fetch_true_exists env k.1 k.2 s hr)
        · exact ih _ _ h k hk2
      · rw [if_neg hr] at h
        have hm := runPairs_failed_mono env ks
          { stats with failed_requests := stats.failed_requests + 1 }
          (fetch_and_save_tide_data env k0.1 k0.2 s).state
        rw [h] at hm
        simp at hm

/-- Request counts add up over concatenated effect traces. -/
theorem requestCount_append (a b : List Effect) :
    requestCount (a ++ b) = requestCount a + requestCount b :=
  List.countP_append _ _ _

/-- A lone directory creation is not a request. -/
theorem requestCount_mkdirP (d : String) :
    requestCount [Effect.mkdirP d] = 0 := rfl

/-- A run all of whose keys already have artifacts makes no HTTP request. -/
theorem runPairs_all_exist_no_requests (env : HttpEnv) (keys : List (String × Nat))
    (stats : RunStats) (s : FsState)
    (h : ∀ k ∈ keys, (lookupArtifact s.artifacts (output_file k.1 k.2)).isSome = true) :
    requestCount (runPairs env keys stats s).2.2 = 0 := by
  induction keys generalizing stats s with
  | nil => rfl
  | cons k0 ks ih =>
      have h0 := h k0 (List.mem_cons_self _ _)
      simp only [runPairs]
      rw [fetch_exists env k0.1 k0.2 s h0]
      rw [requestCount_append]
      have h2 := ih { stats with successful_requests := stats.successful_requests + 1 }
        ⟨s.artifacts, s.errorLog, ensure_directory (station_dir k0.1) s.dirs⟩
        (fun k hk => h k (List.mem_cons_of_mem _ hk))
      simpa [requestCount_mkdirP] using h2

/-- C5: a key whose artifact exists makes no HTTP request (the call returns
before `httpx.get`), and a whole second driver run over the same keys, after
a first run that recorded no failures, performs zero network requests. -/
theorem claim_C5 :
    (∀ (env : HttpEnv) (sid : String) (yr : Nat) (s : FsState),
      (lookupArtifact s.artifacts (output_file sid yr)).isSome = true →
      requestCount (fetch_and_save_tide_data env sid yr s).effects = 0 ∧
      (fetch_and_save_tide_data env sid yr s).result = true) ∧
    (∀ (env1 env2 : HttpEnv) (keys : List (String × Nat)) (s : FsState),
      (runPairs env1 keys ⟨0, 0⟩ s).1.failed_requests = 0 →
      requestCount (runPairs env2 keys ⟨0, 0⟩
        (runPairs env1 keys ⟨0, 0⟩ s).2.1).2.2 = 0) := by
  constructor
  · intro env sid yr s h
    rw [fetch_exists env sid yr s h]
    exact ⟨rfl, rfl⟩
  · intro env1 env2 keys s h
    exact runPairs_all_exist_no_requests env2 keys _ _
      (runPairs_failed_zero env1 keys ⟨0, 0⟩ s h)

/-- C5 witness: the theorem applied at a concrete artifact-bearing state and
a concrete two-run sequence. -/
theorem claim_C5_witness :
    requestCount (fetch_and_save_tide_data envOk ("9414290") 2025
      (stateWith ("9414290") 2025)).effects = 0 ∧
    requestCount (runPairs envOk [(("9414290" : String), 2025)] ⟨0, 0⟩
      (runPairs envOk [(("9414290" : String), 2025)] ⟨0, 0⟩ emptyState).2.1).2.2 = 0 :=
  ⟨(claim_C5.1 envOk ("9414290") 2025 (stateWith ("9414290") 2025) (by decide)).1,
   claim_C5.2 envOk envOk [(("9414290" : String), 2025)] emptyState (by decide)⟩

/-- Folding the log is the same as folding only its matching lines: a
non-matching line leaves the grouping untouched. -/
theorem foldl_addLine_filter (lines : List String) :
    ∀ g : Grouped, lines.foldl addLine g =
      (lines.filter (fun l => (parseLine l).isSome)).foldl addLine g := by
  induction lines with
  | nil => intro g; rfl
  | cons l ls ih =>
      intro g
      by_cases hp : (parseLine l).isSome = true
      · simp only [List.filter_cons, hp, if_true, List.foldl_cons]
        exact ih _
      · have h0 : parseLine l = none :=
          Option.not_isSome_iff_eq_none.mp (by simpa using hp)
        simp only [List.filter_cons, h0, Option.isSome_none, Bool.false_eq_true,
          if_false, List.foldl_cons]
        have hskip : addLine g l = g := by
          unfold addLine
          rw [h0]
        rw [hskip]
        exact ih _

/-- A line that carries the `Exception:` tag cannot match the pattern, whose
first literal is `Error: Station `: the two differ at their second
character. -/
theorem exception_no_match (l : String)
    (h : exceptionTag.isPrefixOf l.data = true) : parseLine l = none := by
  unfold parseLine
  cases hd : l.data with
  | nil =>
      rw [hd] at h
      simp [exceptionTag, List.isPrefixOf] at h
  | cons a t =>
      cases t with
      | nil =>
          rw [hd] at h
          simp [exceptionTag, List.isPrefixOf] at h
      | cons b t2 =>
          rw [hd] at h
          simp only [exceptionTag, List.isPrefixOf, Bool.and_eq_true, beq_iff_eq] at h
          obtain ⟨ha, hb, -⟩ := h
          subst ha
          subst hb
          have hs : stripLit patErrorStation ('E' :: 'x' :: t2) = none := by
            simp [patErrorStation, stripLit]
          unfold parseLineChars
          rw [hs]

/-- Recording an entry for `sid` leaves an entry for `sid` present. -/
theorem addEntry_self_mem (g : Grouped) (sid msg yr : String) :
    ∃ ms, (sid, ms) ∈ addEntry g sid msg yr := by
  induction g with
  | nil => exact ⟨[(msg, [yr])], List.mem_singleton.mpr rfl⟩
  | cons e rest ih =>
      obtain ⟨s0, msgs0⟩ := e
      by_cases h : s0 = sid
      · subst h
        exact ⟨addYear msgs0 msg yr, by simp [addEntry]⟩
      · obtain ⟨ms, hms⟩ := ih
        exact ⟨ms, by simp [addEntry, h, hms]⟩

/-- Recording any entry keeps every station already present. -/
theorem addEntry_keeps_station (g : Grouped) (sid msg yr sid2 : String)
    (h : ∃ ms, (sid2, ms) ∈ g) : ∃ ms, (sid2, ms) ∈ addEntry g sid msg yr := by
  induction g with
  | nil =>
      obtain ⟨ms, hms⟩ := h
      cases hms
  | cons e rest ih =>
      obtain ⟨s0, msgs0⟩ := e
      obtain ⟨ms, hms⟩ := h
      rcases List.mem_cons.mp hms with he | hr
      · by_cases h0 : s0 = sid
        · subst h0
          injection he with he1 _
          subst he1
          exact ⟨addYear msgs0 msg yr, by simp [addEntry]⟩
        · injection he with he1 he2
          subst he1
          subst he2
          exact ⟨ms, by simp [addEntry, h0]⟩
      · by_cases h0 : s0 = sid
        · subst h0
          exact ⟨ms, by simp [addEntry, hr]⟩
        · obtain ⟨ms2, hms2⟩ := ih ⟨ms, hr⟩
          exact ⟨ms2, by simp [addEntry, h0, hms2]⟩

/-- Processing one line keeps every station already present. -/
theorem addLine_keeps_station (g : Grouped) (l : String) (sid2 : String)
    (h : ∃ ms, (sid2, ms) ∈ g) : ∃ ms, (sid2, ms) ∈ addLine g l := by
  unfold addLine
  cases hp : parseLine l with
  | none => exact h
  | some t => exact addEntry_keeps_station g t.1 t.2.2 t.2.1 sid2 h

/-- Folding more lines keeps every station already present. -/
theorem foldl_keeps_station (lines : List String) :
    ∀ (g : Grouped) (sid2 : String), (∃ ms, (sid2, ms) ∈ g) →
      ∃ ms, (sid2, ms) ∈ lines.foldl addLine g := by
  induction lines with
  | nil => intro g sid2 h; exact h
  | cons l ls ih =>
      intro g sid2 h
      simp only [List.foldl_cons]
      exact ih _ _ (addLine_keeps_station g l sid2 h)

/-- C7: the grouped report is built from exactly the lines matching
`Error: Station <digits>, year <digits>: <rest>`: non-matching lines
(in particular every `Exception:`-prefixed line) are silently ignored
and change nothing, while every matching line present in the log yields an
entry for its station. -/
theorem claim_C7 :
    (∀ lines : List String, buildGroups lines =
      buildGroups (lines.filter (fun l => (parseLine l).isSome))) ∧
    (∀ l : String, exceptionTag.isPrefixOf l.data = true → parseLine l = none) ∧
    (∀ (lines : List String) (l sid yr msg : String),
      l ∈ lines → parseLine l = some (sid, yr, msg) →
      ∃ ms, (sid, ms) ∈ buildGroups lines) := by
  refine ⟨fun lines => foldl_addLine_filter lines [], exception_no_match, ?_⟩
  intro lines
  unfold buildGroups
  suffices hgen : ∀ (g : Grouped) (l sid yr msg : String), l ∈ lines →
      parseLine l = some (sid, yr, msg) → ∃ ms, (sid, ms) ∈ lines.foldl addLine g by
    intro l sid yr msg hl hp
    exact hgen [] l sid yr msg hl hp
  induction lines with
  | nil =>
      intro g l sid yr msg hl
      cases hl
  | cons l0 ls ih =>
      intro g l sid yr msg hl hp
      simp only [List.foldl_cons]
      rcases List.mem_cons.mp hl with rfl | hl2
      · have hstep : addLine g l = addEntry g sid msg yr := by
          unfold addLine
          rw [hp]
        rw [hstep]
        exact foldl_keeps_station ls _ sid (addEntry_self_mem g sid msg yr)
      · exact ih _ l sid yr msg hl2 hp

/-- C7 witness: the theorem applied to a concrete exception line and a
concrete matching line. -/
theorem claim_C7_witness :
    parseLine ("Exception: Station 123, year 2025: boom") = none ∧
    ∃ ms, (("123" : String), ms) ∈
      buildGroups [("Error: Station 123, year 2025: No predictions data")] :=
  ⟨claim_C7.2.1 ("Exception: Station 123, year 2025: boom") (by decide),
   claim_C7.2.2 [("Error: Station 123, year 2025: No predictions data")]
     ("Error: Station 123, year 2025: No predictions data")
     ("123") ("2025") ("No predictions data") (by decide) (by decide)⟩

/-- C8: the two `No predictions data` lines for station 123 report as the
single message `Missing` with years `2025, 2026` in that order; the rewrite
touches only the literal `No predictions data`, and years are printed
string-sorted. -/
theorem claim_C8 :
    summarize [(("123" : String), ("Santa Monica" : String))]
      [("Error: Station 123, year 2025: No predictions data"),
       ("Error: Station 123, year 2026: No predictions data")] =
      [(("123" : String), ("Santa Monica" : String),
        [(("Missing" : String), ("2025, 2026" : String))])] ∧
    (∀ m : String, m ≠ "No predictions data" → display_message m = m) ∧
    yearsStr [("2026"), ("2025")] = "2025, 2026" := by
  refine ⟨by decide, ?_, by decide⟩
  intro m hm
  simp [display_message, hm]

/-- C8 witness: the rewrite leaves another message untouched. -/
theorem claim_C8_witness : display_message ("HTTP 500") = "HTTP 500" :=
  claim_C8.2.1 ("HTTP 500") (by decide)

/-- A station id matching no station resolves to no name. -/
theorem station_dict_none (stations : List (String × String)) (sid : String)
    (h : ∀ p ∈ stations, p.1 ≠ sid) : station_dict stations sid = none := by
  induction stations with
  | nil => rfl
  | cons p rest ih =>
      obtain ⟨i, n⟩ := p
      have hi : i ≠ sid := h (i, n) (List.mem_cons_self _ _)
      have hr := ih (fun q hq => h q (List.mem_cons_of_mem _ hq))
      simp [station_dict, hr, hi]

/-- C9: a report entry whose station id is absent from the station list
carries the display name `Unknown Station` (and `summarize`, being total,
does not fail). -/
theorem claim_C9 : ∀ (stations : List (String × String)) (lines : List String)
    (sid name : String) (msgs : List (String × String)),
    (sid, name, msgs) ∈ summarize stations lines →
    (∀ p ∈ stations, p.1 ≠ sid) →
    name = "Unknown Station" := by
  intro stations lines sid name msgs hmem habs
  unfold summarize at hmem
  rcases List.mem_map.mp hmem with ⟨e, -, heq⟩
  simp only [Prod.mk.injEq] at heq
  obtain ⟨hsid, hname, -⟩ := heq
  rw [← hname, hsid, station_dict_none stations sid habs]
  rfl

/-- C9 witness: the theorem applied to a concrete log line for a station id
that is not in the station list. -/
theorem claim_C9_witness :
    (("123" : String), ("Unknown Station" : String),
      [(("Missing" : String), ("2025" : String))]) ∈
      summarize [(("9414290" : String), ("Santa Monica" : String))]
        [("Error: Station 123, year 2025: No predictions data")] ∧
    ("Unknown Station" : String) = "Unknown Station" :=
  ⟨by decide,
   claim_C9 [(("9414290" : String), ("Santa Monica" : String))]
     [("Error: Station 123, year 2025: No predictions data")]
     ("123") ("Unknown Station") [(("Missing" : String), ("2025" : String))]
     (by decide) (by decide)⟩

end NoaaTides
